import Mathlib

/-!
Shallow embedding of `src/wscat/wscat.py`: a per-session WebSocket client
manager built on Reflex.  The module-level dict `_WEBSOCKETS` is modelled as
an association list with Python-dict semantics (`dictGet`, `dictSet`,
`dictDel`), the session state class `State` as the record `SessionState`,
and the event handlers (`on_load`, `connect`, `send_message`) as pure
functions.  The background event `connect` interleaves with other tasks at
each `async with self` block and at each registry mutation; it is embedded
as `connectTrace`, the list of observable (registry, session-state)
snapshots in program order.
-/

namespace Wscat

/-- `Message.role` literal: `"user"` or `"server"`. -/
inductive Role
  | user
  | server
deriving DecidableEq, Repr

/-- The `Message` dataclass of the source: a role and a text. -/
structure Message where
  role : Role
  text : String
deriving DecidableEq, Repr

/-- Modelled from the spec (§4.2 ConnectionHandle): the handle owned by the
external `websockets` library.  `id` models `str(ws.id)`; `isOpen` models
whether the underlying socket is still open, so that `send` succeeds exactly
when the socket is open and raises otherwise. -/
structure ClientConnection where
  id : String
  isOpen : Bool
deriving DecidableEq, Repr

/-- An inbound WebSocket frame: `str` payloads and binary (`bytes`) payloads,
as distinguished by `isinstance(message, str)` in the relay loop. -/
inductive Frame
  | text (s : String)
  | binary (b : List Nat)
deriving DecidableEq, Repr

/-- The error raised by `ClientConnection.send` on a closed socket
(`ConnectionClosed` in the `websockets` library, `SendError` in the spec). -/
inductive WsError
  | sendError
deriving DecidableEq, Repr

/-- The module-level dict `_WEBSOCKETS : dict[str, ClientConnection]`. -/
abbrev Registry := List (String × ClientConnection)

/-- Python dict read: `d.get(k, None)` / `d[k]`. -/
def dictGet (d : Registry) (k : String) : Option ClientConnection :=
  match d with
  | [] => none
  | (k', v) :: rest => if k' = k then some v else dictGet rest k

/-- Python dict assignment `d[k] = v`: binds `k` to `v`, silently replacing
any existing binding of `k`. -/
def dictSet (d : Registry) (k : String) (v : ClientConnection) : Registry :=
  (k, v) :: d.filter (fun p => p.1 != k)

/-- Python `del d[k]`: removes the binding of `k`. -/
def dictDel (d : Registry) (k : String) : Registry :=
  d.filter (fun p => p.1 != k)

/-- Python `k in d`. -/
def dictContains (d : Registry) (k : String) : Bool :=
  (dictGet d k).isSome

/-- The fields of the Reflex `State` class (`_websocket_id` keeps the source
name without the Python privacy underscore). -/
structure SessionState where
  server_url : String
  message_buffer : String
  messages : List Message
  connected : Bool
  websocket_id : String
deriving DecidableEq, Repr

/-- The default `State`: `server_url="wss://websocket-echo.com"`, empty
buffer, no messages, disconnected. -/
def defaultState : SessionState :=
  { server_url := "wss://websocket-echo.com"
    message_buffer := ""
    messages := []
    connected := false
    websocket_id := "" }

/-- `State.on_load`: `self.connected = bool(self._websocket_id) and
self._websocket_id in _WEBSOCKETS`. -/
def on_load (w : Registry) (st : SessionState) : SessionState :=
  { st with connected := (st.websocket_id != "") && dictContains w st.websocket_id }

/-- `ws.send(text)`: succeeds when the socket is open, raises otherwise
(modelled from the spec §4.2 contract of the external handle). -/
def wsSend (ws : ClientConnection) (_text : String) : Except WsError Unit :=
  if ws.isOpen then Except.ok () else Except.error WsError.sendError

/-- The outcome of the network call `connect(self.server_url)`: either the
handshake raises (`failure`), or it yields a live handle together with the
sequence of frames the socket will deliver before it closes. -/
inductive ConnectOutcome
  | failure
  | success (ws : ClientConnection) (frames : List Frame)
deriving DecidableEq, Repr

/-- The `async for message in ws` body of `State.connect`: appends a SERVER
message for each `str` frame, ignores binary frames; returns the final
session state. -/
def relayLoop (st : SessionState) (frames : List Frame) : SessionState :=
  match frames with
  | [] => st
  | Frame.text m :: rest =>
      relayLoop { st with messages := st.messages ++ [⟨Role.server, m⟩] } rest
  | Frame.binary _ :: rest => relayLoop st rest

/-- The observable session states produced inside the `async for` loop of
`State.connect`: one snapshot per appended SERVER message (binary frames
enter no `async with self` block and produce no snapshot). -/
def relayStates (st : SessionState) (frames : List Frame) : List SessionState :=
  match frames with
  | [] => []
  | Frame.text m :: rest =>
      let st' := { st with messages := st.messages ++ [⟨Role.server, m⟩] }
      st' :: relayStates st' rest
  | Frame.binary _ :: rest => relayStates st rest

/-- The background event `State.connect`, as the list of observable
(registry, session state) snapshots in program order:
1. after the first `async with self` block (`messages.clear()`,
   `connected = False`, `_websocket_id = ""`);
then, when `connect(self.server_url)` raises, nothing more; otherwise
2. after `_WEBSOCKETS[websocket_id] = ws`;
3. after the second `async with self` block (`connected = True`,
   `_websocket_id = websocket_id`);
4. one snapshot per SERVER message appended by the `async for` loop;
5. after `del _WEBSOCKETS[websocket_id]` when the socket closes. -/
def connectTrace (w : Registry) (st : SessionState) (o : ConnectOutcome) :
    List (Registry × SessionState) :=
  let st1 : SessionState :=
    { st with messages := [], connected := false, websocket_id := "" }
  match o with
  | ConnectOutcome.failure => [(w, st1)]
  | ConnectOutcome.success ws frames =>
      let wsId := ws.id
      let w2 := dictSet w wsId ws
      let st2 : SessionState := { st1 with connected := true, websocket_id := wsId }
      (w, st1) :: (w2, st1) :: (w2, st2) ::
        ((relayStates st2 frames).map (fun s => (w2, s)) ++
          [(dictDel w2 wsId, relayLoop st2 frames)])

/-- The result of the event `State.send_message`: the session state after the
handler, the payload handed to `ws.send` when a handle was found, and the
exception (if any) escaping the handler. -/
structure SendOutcome where
  state : SessionState
  sent : Option String
  error : Option WsError
deriving DecidableEq, Repr

/-- The event `State.send_message`: reads and clears `message_buffer`,
appends a USER message, then looks up `_WEBSOCKETS.get(self._websocket_id,
None)`; when the lookup misses it returns, otherwise it awaits
`websocket_connection.send(message)`, whose failure propagates (the source
has no `try`/`except` around the send). -/
def send_message (w : Registry) (st : SessionState) : SendOutcome :=
  let message := st.message_buffer
  let st := { st with message_buffer := "" }
  let st := { st with messages := st.messages ++ [⟨Role.user, message⟩] }
  match dictGet w st.websocket_id with
  | none => ⟨st, none, none⟩
  | some ws =>
      match wsSend ws message with
      | Except.ok _ => ⟨st, some message, none⟩
      | Except.error e => ⟨st, some message, some e⟩

/-- `State.update_message_buffer`. -/
def update_message_buffer (st : SessionState) (value : String) : SessionState :=
  { st with message_buffer := value }

/-- `State.update_server_url`. -/
def update_server_url (st : SessionState) (value : String) : SessionState :=
  { st with server_url := value }

/-- The `str` payloads of a frame sequence, in receipt order. -/
def frameTexts (fs : List Frame) : List String :=
  fs.filterMap (fun f =>
    match f with
    | Frame.text s => some s
    | Frame.binary _ => none)

/-- The texts of the SERVER-role entries of a message log, in log order. -/
def serverTexts (ms : List Message) : List String :=
  ms.filterMap (fun m => if m.role = Role.server then some m.text else none)

end Wscat

namespace Wscat

/-! ### Helper lemmas -/

theorem dictGet_set_self (d : Registry) (k : String) (v : ClientConnection) :
    dictGet (dictSet d k v) k = some v := by
  simp [dictGet, dictSet]

theorem dictGet_del_self (d : Registry) (k : String) :
    dictGet (dictDel d k) k = none := by
  induction d with
  | nil => rfl
  | cons p rest ih =>
      by_cases h : p.1 = k
      · simpa [dictDel, h] using ih
      · simpa [dictDel, dictGet, h] using ih

theorem relayLoop_eq (st : SessionState) (frames : List Frame) :
    relayLoop st frames =
      { st with messages :=
          st.messages ++ (frameTexts frames).map (fun t => ⟨Role.server, t⟩) } := by
  induction frames generalizing st with
  | nil => simp [relayLoop, frameTexts]
  | cons f rest ih =>
      cases f with
      | text m =>
          simp [relayLoop, frameTexts, ih]
      | binary b =>
          simp [relayLoop, frameTexts, ih]

theorem dropLast_cons3_concat {α : Type} (a b c l : α) (m : List α) :
    (a :: b :: c :: (m ++ [l])).dropLast = a :: b :: c :: m := by
  have h : a :: b :: c :: (m ++ [l]) = (a :: b :: c :: m) ++ [l] := by simp
  rw [h, List.dropLast_concat]

theorem getLast?_cons3_concat {α : Type} (a b c l : α) (m : List α) :
    (a :: b :: c :: (m ++ [l])).getLast? = some l := by
  have h : a :: b :: c :: (m ++ [l]) = (a :: b :: c :: m) ++ [l] := by simp
  rw [h, List.getLast?_concat]

theorem serverTexts_map_server (l : List String) :
    serverTexts (l.map (fun t => ⟨Role.server, t⟩)) = l := by
  induction l with
  | nil => rfl
  | cons t rest ih =>
      simpa [serverTexts, List.filterMap_cons] using ih

theorem relayStates_pres (st : SessionState) (frames : List Frame) :
    ∀ s ∈ relayStates st frames,
      s.connected = st.connected ∧ s.websocket_id = st.websocket_id := by
  induction frames generalizing st with
  | nil => intro s hs; simp [relayStates] at hs
  | cons f rest ih =>
      intro s hs
      cases f with
      | text m =>
          simp only [relayStates, List.mem_cons] at hs
          rcases hs with rfl | hs
          · exact ⟨rfl, rfl⟩
          · exact ih { st with messages := st.messages ++ [⟨Role.server, m⟩] } s hs
      | binary b =>
          exact ih _ s hs

/-! ### Claim theorems -/

/-- C3 (confirmed): for every connect attempt — whatever the network outcome,
including reconnects on a session holding messages from a previous epoch —
the first observable point of `State.connect` already has `messages = []`,
`connected = false` and an empty `_websocket_id`, with `server_url`,
`message_buffer` and the registry untouched; the reset is complete before
the network outcome can influence any state. -/
theorem connect_resets_before_network (w : Registry) (st : SessionState)
    (o : ConnectOutcome) :
    (connectTrace w st o).head? =
      some (w, { st with messages := [], connected := false, websocket_id := "" }) := by
  cases o <;> rfl

/-- C7 (confirmed): when `connect(self.server_url)` raises, the event's only
observable point is the reset state: `connected` stays false, `messages`
stays empty, `_websocket_id` stays empty and the registry is unchanged — no
entry was created and no `Connected` transition ever appears in the trace. -/
theorem connect_failure_state (w : Registry) (st : SessionState) :
    connectTrace w st ConnectOutcome.failure =
      [(w, { st with messages := [], connected := false, websocket_id := "" })] :=
  rfl

/-- C6 (confirmed): the relay extends `messages` by exactly the text frames,
as SERVER messages, in receipt order — the prior log is a preserved prefix
(append-only within the epoch), and the SERVER-role texts grow by exactly
the received text payloads with no loss, duplication or reordering. -/
theorem relay_appends_in_receipt_order (st : SessionState) (frames : List Frame) :
    (relayLoop st frames).messages =
      st.messages ++ (frameTexts frames).map (fun t => ⟨Role.server, t⟩) ∧
    serverTexts (relayLoop st frames).messages =
      serverTexts st.messages ++ frameTexts frames := by
  refine ⟨by rw [relayLoop_eq], ?_⟩
  rw [relayLoop_eq]
  show serverTexts (st.messages ++ _) = _
  simp only [serverTexts, List.filterMap_append]
  congr 1
  simpa [serverTexts] using serverTexts_map_server (frameTexts frames)

/-- C8 (confirmed): a text frame appends exactly one SERVER message carrying
its payload, and a binary frame leaves the session state entirely unchanged —
a SERVER message is surfaced in the log iff the frame is a text frame. -/
theorem relay_text_frames_only (st : SessionState) (s : String) (b : List Nat) :
    (relayLoop st [Frame.text s]).messages = st.messages ++ [⟨Role.server, s⟩] ∧
    relayLoop st [Frame.binary b] = st :=
  ⟨rfl, rfl⟩

/-- C9 (confirmed): `State.on_load` sets `connected` to true iff the stored
`_websocket_id` is non-empty and is a key of `_WEBSOCKETS`, and leaves
`server_url`, `message_buffer`, `messages` and `_websocket_id` unchanged. -/
theorem on_load_reconciles_connected (w : Registry) (st : SessionState) :
    ((on_load w st).connected = true ↔
      st.websocket_id ≠ "" ∧ (dictGet w st.websocket_id).isSome = true) ∧
    (on_load w st).server_url = st.server_url ∧
    (on_load w st).message_buffer = st.message_buffer ∧
    (on_load w st).messages = st.messages ∧
    (on_load w st).websocket_id = st.websocket_id := by
  refine ⟨?_, rfl, rfl, rfl, rfl⟩
  simp [on_load, dictContains, bne_iff_ne]

/-- C10 (confirmed): `State.send_message` appends exactly one USER message
whose text is the value of `message_buffer` at submit time, clears the
buffer, and offers exactly that text to the handle's send whenever the
lookup finds a handle — with no condition on `connected` and no special case
for an empty draft (the statement quantifies over all states, including
`message_buffer = ""` and `connected = false`). -/
theorem send_message_uses_buffer (w : Registry) (st : SessionState) :
    (send_message w st).state.messages =
      st.messages ++ [⟨Role.user, st.message_buffer⟩] ∧
    (send_message w st).state.message_buffer = "" ∧
    (send_message w st).sent =
      (dictGet w st.websocket_id).map (fun _ => st.message_buffer) := by
  cases h : dictGet w st.websocket_id with
  | none => simp [send_message, h]
  | some ws =>
      cases hws : wsSend ws st.message_buffer <;> simp [send_message, h, hws]

/-- C1 (counterexample): after the relay observes closure, `State.connect`
deletes the registry entry but leaves `connected = true` and
`_websocket_id` set, so at the final observable point of the trace the
session is flagged connected while the lookup of its connection id fails —
the claimed invariant does not hold at every observable point. -/
theorem connect_close_breaks_invariant :
    ((connectTrace [] ⟨"wss://x", "", [], false, ""⟩
        (ConnectOutcome.success ⟨"cid", true⟩ [])).getLast?).map
      (fun p => (p.2.connected, dictGet p.1 p.2.websocket_id)) =
    some (true, none) := by
  rfl

/-- C1 (amended): at every observable point of `State.connect` strictly
before the final post-closure point, `connected = true` implies the
session's `_websocket_id` is a key of `_WEBSOCKETS`; only the final point —
after `del _WEBSOCKETS[websocket_id]` — leaves `connected` true with the
entry gone, which is reconciled only by the next `on_load` or `connect`. -/
theorem connected_implies_registered_before_close (w : Registry)
    (st : SessionState) (o : ConnectOutcome) (p : Registry × SessionState)
    (hp : p ∈ (connectTrace w st o).dropLast) (hc : p.2.connected = true) :
    (dictGet p.1 p.2.websocket_id).isSome = true := by
  cases o with
  | failure => simp [connectTrace] at hp
  | success ws frames =>
      simp only [connectTrace] at hp
      rw [dropLast_cons3_concat] at hp
      simp only [List.mem_cons, List.mem_map] at hp
      rcases hp with rfl | rfl | rfl | ⟨s, hs, rfl⟩
      · exact absurd hc (by simp)
      · exact absurd hc (by simp)
      · simp [dictGet_set_self]
      · obtain ⟨-, hid⟩ := relayStates_pres _ _ s hs
        simp only [hid]
        simp [dictGet_set_self]

/-- Witness for `connected_implies_registered_before_close`: the
post-`markConnected` point of a concrete one-connection run. -/
theorem connected_implies_registered_before_close_witness :
    (([("cid2", ⟨"cid2", true⟩)],
        (⟨"wss://y", "", [], true, "cid2"⟩ : SessionState)) ∈
      (connectTrace [] ⟨"wss://y", "", [], false, ""⟩
        (ConnectOutcome.success ⟨"cid2", true⟩ [])).dropLast) ∧
    (dictGet [("cid2", ⟨"cid2", true⟩)] "cid2").isSome = true := by
  refine ⟨by decide, ?_⟩
  exact connected_implies_registered_before_close []
    ⟨"wss://y", "", [], false, ""⟩ (ConnectOutcome.success ⟨"cid2", true⟩ [])
    ([("cid2", ⟨"cid2", true⟩)], ⟨"wss://y", "", [], true, "cid2"⟩)
    (by decide) rfl

/-- C2 (counterexample): at the final observable point after the receive
loop ends, the code has removed the registry entry but `connected` is still
`true` and `_websocket_id` still holds the connection id — the claimed
`connected=false` and empty-connectionId updates never happen. -/
theorem connect_close_keeps_connected_flag :
    ((connectTrace [] ⟨"wss://z", "draft", [], false, ""⟩
        (ConnectOutcome.success ⟨"wid", true⟩ [Frame.text "hi"])).getLast?).map
      (fun p => (p.2.connected, p.2.websocket_id)) = some (true, "wid") := by
  rfl

/-- C2 (amended): when the relay observes closure it removes the
connection's entry from `_WEBSOCKETS` (the lookup of the id fails
afterwards) and does not clear `messages` — the SERVER history of the epoch
remains visible — but it does not set `connected=false` and does not clear
`_websocket_id`; those keep their connected-epoch values until the next
`on_load` or `connect`. -/
theorem connect_close_final_point (w : Registry) (st : SessionState)
    (ws : ClientConnection) (frames : List Frame) :
    (connectTrace w st (ConnectOutcome.success ws frames)).getLast? =
      some (dictDel (dictSet w ws.id ws) ws.id,
        { server_url := st.server_url, message_buffer := st.message_buffer,
          messages := (frameTexts frames).map (fun t => ⟨Role.server, t⟩),
          connected := true, websocket_id := ws.id }) ∧
    dictGet (dictDel (dictSet w ws.id ws) ws.id) ws.id = none := by
  refine ⟨?_, dictGet_del_self _ _⟩
  simp only [connectTrace]
  rw [getLast?_cons3_concat, relayLoop_eq]
  simp

/-- C4 (counterexample): when the registry lookup succeeds but the handle's
socket is closed, `websocket_connection.send(message)` raises and the
exception escapes the handler (the source has no `try` around the send) —
the failed send is not discarded silently. -/
theorem send_message_raises_on_closed_handle :
    (send_message [("a", ⟨"a", false⟩)] ⟨"u", "hello", [], true, "a"⟩).error =
      some WsError.sendError := by
  rfl

/-- C4 (amended): when the registry lookup of `_websocket_id` finds no
handle, the send is discarded silently — no error, nothing handed to a
handle, and the only state change is the usual USER append plus the buffer
clear.  When the lookup succeeds and the handle's send fails, the failure
propagates out of the handler instead. -/
theorem send_message_silent_on_lookup_miss (w : Registry) (st : SessionState)
    (h : dictGet w st.websocket_id = none) :
    (send_message w st).error = none ∧ (send_message w st).sent = none ∧
    (send_message w st).state =
      { st with message_buffer := "",
                messages := st.messages ++ [⟨Role.user, st.message_buffer⟩] } := by
  simp [send_message, h]

/-- Witness for `send_message_silent_on_lookup_miss`: submitting a draft
with an empty registry and `connected = false`. -/
theorem send_message_silent_on_lookup_miss_witness :
    dictGet [] "" = none ∧
    (send_message [] ⟨"wss://w", "hey", [], false, ""⟩).error = none := by
  refine ⟨rfl, ?_⟩
  exact (send_message_silent_on_lookup_miss []
    ⟨"wss://w", "hey", [], false, ""⟩ rfl).1

/-- C5 (counterexample): `_WEBSOCKETS[websocket_id] = ws` with an id already
present silently replaces the old handle and the connect proceeds normally —
no DuplicateSession failure exists anywhere in the code. -/
theorem registry_insert_overwrites :
    (connectTrace [("dup", ⟨"dup", true⟩)] ⟨"u", "", [], false, ""⟩
        (ConnectOutcome.success ⟨"dup", false⟩ []))[1]? =
      some ([("dup", ⟨"dup", false⟩)], ⟨"u", "", [], false, ""⟩) := by
  rfl

/-- C5 (amended): registry insertion during connect is an unconditional dict
assignment: at the post-insert observable point the id maps to the inserted
handle, any prior binding of the same id silently replaced — there is no
DuplicateSession check and insertion cannot fail. -/
theorem registry_insert_unconditional (w : Registry) (st : SessionState)
    (ws : ClientConnection) (frames : List Frame) :
    ((connectTrace w st (ConnectOutcome.success ws frames))[1]?).map Prod.fst =
      some (dictSet w ws.id ws) ∧
    dictGet (dictSet w ws.id ws) ws.id = some ws :=
  ⟨rfl, dictGet_set_self w ws.id ws⟩

end Wscat
